import Mathlib

/-!
Shallow embedding of samples/instances.js from the nodejs-bigtable samples
repository: an administrative CLI over the Bigtable admin API. The remote
API is modelled by an environment of oracles (one per admin-API method);
each handler is a function from the environment and its string arguments to
the trace of console output and remote calls it produces. CLI arguments
that JavaScript would pass as undefined are modelled as Option String with
none standing for undefined.
-/

namespace Instances

/-- One cluster entry inside instance-create options (instances.js lines
44-51 and 123-129): a name (possibly undefined), an optional node count, a
location and a storage medium. -/
structure ClusterSpec where
  name : Option String
  nodes : Option Nat
  location : String
  storage : String
deriving DecidableEq, Repr

/-- Options passed to an instance create call: a list of cluster entries, a
type string and a labels object (modelled as a key-value list). -/
structure InstanceOptions where
  clusters : List ClusterSpec
  type : String
  labels : List (String × String)
deriving DecidableEq, Repr

/-- Options passed to instance.createCluster (instances.js lines 182-186). -/
structure ClusterOptions where
  location : String
  nodes : Nat
  storage : String
deriving DecidableEq, Repr

/-- An instance object as returned by the remote API: its name property and
its metadata (already in the stringified form the sample prints). -/
structure InstanceInfo where
  name : String
  metadata : String
deriving DecidableEq, Repr

/-- A cluster object as returned by the remote API: its id property. -/
structure ClusterInfo where
  id : String
deriving DecidableEq, Repr

/-- A remote admin-API call as issued by the sample, together with the
arguments the sample passes. -/
inductive RemoteCall where
  | existsCheck (instanceName : Option String)
  | create (instanceName : Option String) (options : InstanceOptions)
  | getInstances
  | get (instanceName : Option String)
  | getClusters (instanceName : Option String)
  | createInstance (instanceName : Option String) (options : InstanceOptions)
  | deleteInstance (instanceName : Option String)
  | createCluster (instanceName : Option String) (clusterName : Option String)
      (options : ClusterOptions)
  | deleteCluster (instanceName : Option String) (clusterName : Option String)
deriving DecidableEq, Repr

/-- One observable event of a handler run: a console.log line, a
console.error line (static tag plus the error), or a remote call being
issued. -/
inductive Event where
  | log (line : String)
  | logErr (tag : String) (err : String)
  | call (c : RemoteCall)
deriving DecidableEq, Repr

/-- The external collaborator (the Bigtable client library plus the remote
service), modelled as oracles: one response per admin-API method, keyed by
the arguments the sample passes. Except.error models a rejected promise.
instanceNameProp and clusterIdProp model the .name and .id properties of
locally constructed Instance and Cluster handles (the SDK computes these
from the requested names without a remote call). -/
structure Env where
  instanceNameProp : Option String → String
  clusterIdProp : Option String → Option String → String
  existsResult : Option String → Except String Bool
  createResult : Option String → InstanceOptions → Except String InstanceInfo
  getInstancesResult : Except String (List InstanceInfo)
  getResult : Option String → Except String InstanceInfo
  getClustersResult : Option String → Except String (List ClusterInfo)
  createInstanceResult : Option String → InstanceOptions → Except String InstanceInfo
  deleteInstanceResult : Option String → Except String Unit
  createClusterResult : Option String → Option String → ClusterOptions →
      Except String ClusterInfo
  deleteClusterResult : Option String → Option String → Except String Unit

/-- The instanceOptions object built by runInstanceOperations (instances.js
lines 43-54). -/
def instanceOptions (clusterName : Option String) : InstanceOptions :=
  { clusters := [{ name := clusterName, nodes := some 3,
                   location := "us-central1-f", storage := "ssd" }],
    type := "PRODUCTION",
    labels := [("prod-label", "prod-label")] }

/-- The options object built by createDevInstance (instances.js lines
122-132); the source calls this local simply options. -/
def devInstanceOptions (clusterName : Option String) : InstanceOptions :=
  { clusters := [{ name := clusterName, nodes := none,
                   location := "us-central1-f", storage := "hdd" }],
    type := "DEVELOPMENT",
    labels := [("dev-label", "dev-label")] }

/-- The clusterOptions object built by addCluster (instances.js lines
182-186). -/
def clusterOptions : ClusterOptions :=
  { location := "us-central1-c", nodes := 3, storage := "ssd" }

/-- The create-if-absent branch of runInstanceOperations (instances.js lines
37-67): returns the events of the branch and whether the handler continues
(false when the create call failed and the handler returned early). -/
def runCreateBranch (env : Env) (instanceName clusterName : Option String)
    (instanceExists : Bool) : List Event × Bool :=
  if !instanceExists then
    match env.createResult instanceName (instanceOptions clusterName) with
    | Except.error err =>
        ([Event.log "Creating a PRODUCTION Instance",
          Event.call (RemoteCall.create instanceName (instanceOptions clusterName)),
          Event.logErr "Error creating prod-instance:" err], false)
    | Except.ok prodInstance =>
        ([Event.log "Creating a PRODUCTION Instance",
          Event.call (RemoteCall.create instanceName (instanceOptions clusterName)),
          Event.log ("Created Instance: " ++ prodInstance.name)], true)
  else
    ([Event.log ("Instance " ++ env.instanceNameProp instanceName ++ " exists")], true)

/-- The listing steps of runInstanceOperations (instances.js lines 69-109):
list all instances, get the named instance, list its clusters, each wrapped
in a try/catch that logs the error and returns. Note the getClusters catch
logs with the static tag "Error creating cluster:" (instances.js line 106). -/
def runListingSteps (env : Env) (instanceName : Option String) : List Event :=
  [Event.log "", Event.log "Listing Instances:",
   Event.call RemoteCall.getInstances] ++
  match env.getInstancesResult with
  | Except.error err => [Event.logErr "Error listing instances:" err]
  | Except.ok instancesList =>
      instancesList.map (fun i => Event.log i.name) ++
      ([Event.log "", Event.log "Get Instance",
        Event.call (RemoteCall.get instanceName)] ++
      match env.getResult instanceName with
      | Except.error err => [Event.logErr "Error getting instance:" err]
      | Except.ok inst =>
          [Event.log ("Instance Name: " ++ inst.name),
           Event.log ("Instance Meta: " ++ inst.metadata),
           Event.log "", Event.log "Listing Clusters...",
           Event.call (RemoteCall.getClusters instanceName)] ++
          match env.getClustersResult instanceName with
          | Except.error err => [Event.logErr "Error creating cluster:" err]
          | Except.ok clusters => clusters.map (fun c => Event.log c.id))

/-- The run handler runInstanceOperations (instances.js lines 21-110):
existence check, conditional create, then the listing steps; every failing
step logs its error and returns early. -/
def runInstanceOperations (env : Env) (instanceName clusterName : Option String) :
    List Event :=
  [Event.log "Check Instance Exists",
   Event.call (RemoteCall.existsCheck instanceName)] ++
  match env.existsResult instanceName with
  | Except.error err => [Event.logErr "Error checking if Instance exists:" err]
  | Except.ok instanceExists =>
      let step := runCreateBranch env instanceName clusterName instanceExists
      step.1 ++ (if step.2 then runListingSteps env instanceName else [])

/-- The dev-instance handler createDevInstance (instances.js lines 115-143):
one createInstance call with DEVELOPMENT options, try/catch logging. -/
def createDevInstance (env : Env) (instanceName clusterName : Option String) :
    List Event :=
  [Event.log "", Event.log "Creating a DEVELOPMENT Instance",
   Event.call (RemoteCall.createInstance instanceName (devInstanceOptions clusterName))] ++
  match env.createInstanceResult instanceName (devInstanceOptions clusterName) with
  | Except.error err => [Event.logErr "Error creating dev-instance:" err]
  | Except.ok inst => [Event.log ("Created development instance: " ++ inst.name)]

/-- The del-instance handler deleteInstance (instances.js lines 146-161):
one unconditional delete call, try/catch logging. -/
def deleteInstance (env : Env) (instanceName : Option String) : List Event :=
  [Event.log "", Event.log "Deleting Instance",
   Event.call (RemoteCall.deleteInstance instanceName)] ++
  match env.deleteInstanceResult instanceName with
  | Except.error err => [Event.logErr "Error deleting instance:" err]
  | Except.ok _ =>
      [Event.log ("Instance deleted: " ++ env.instanceNameProp instanceName)]

/-- The add-cluster handler addCluster (instances.js lines 164-200):
existence check, then either a log that the instance does not exist or one
createCluster call. -/
def addCluster (env : Env) (instanceName clusterName : Option String) : List Event :=
  [Event.call (RemoteCall.existsCheck instanceName)] ++
  match env.existsResult instanceName with
  | Except.error err => [Event.logErr "Error checking if Instance exists:" err]
  | Except.ok instanceExists =>
      if !instanceExists then
        [Event.log "Instance does not exists"]
      else
        [Event.log "",
         Event.log ("Adding Cluster to Instance " ++ env.instanceNameProp instanceName),
         Event.call (RemoteCall.createCluster instanceName clusterName clusterOptions)] ++
        match env.createClusterResult instanceName clusterName clusterOptions with
        | Except.error err => [Event.logErr "Error creating cluster:" err]
        | Except.ok cluster => [Event.log ("Cluster created: " ++ cluster.id)]

/-- The del-cluster handler deleteCluster (instances.js lines 203-219):
one unconditional cluster delete call, try/catch logging. -/
def deleteCluster (env : Env) (instanceName clusterName : Option String) : List Event :=
  [Event.log "", Event.log "Deleting Cluster",
   Event.call (RemoteCall.deleteCluster instanceName clusterName)] ++
  match env.deleteClusterResult instanceName clusterName with
  | Except.error err => [Event.logErr "Error deleting cluster:" err]
  | Except.ok _ =>
      [Event.log ("Cluster deleted: " ++ env.clusterIdProp instanceName clusterName)]

/-- The parsed argument vector as the yargs configuration at instances.js
lines 221-269 produces it: an optional first positional (the subcommand), a
flag recording whether an argument unknown to the strict parser was present,
and the two named options, none when omitted on the command line. -/
structure Argv where
  command : Option String
  unknownFlag : Bool
  instanceArg : Option String
  clusterArg : Option String
deriving DecidableEq, Repr

/-- Result of one CLI invocation: either the argument parser rejected the
invocation (usage text on standard error, non-zero exit), or exactly one
handler ran, producing a trace. -/
inductive CliResult where
  | usageError
  | ran (trace : List Event)
deriving DecidableEq, Repr

/-- The command dispatcher as configured at instances.js lines 221-269:
demand(1) requires a subcommand, strict() rejects unknown commands and
flags, and each of the five commands is registered with an empty builder
object (so no named option is demanded) and a handler that receives
argv.instance and argv.cluster as-is. -/
def dispatch (env : Env) (argv : Argv) : CliResult :=
  if argv.unknownFlag then CliResult.usageError
  else
    match argv.command with
    | none => CliResult.usageError
    | some c =>
        if c = "run" then
          CliResult.ran (runInstanceOperations env argv.instanceArg argv.clusterArg)
        else if c = "dev-instance" then
          CliResult.ran (createDevInstance env argv.instanceArg argv.clusterArg)
        else if c = "del-instance" then
          CliResult.ran (deleteInstance env argv.instanceArg)
        else if c = "add-cluster" then
          CliResult.ran (addCluster env argv.instanceArg argv.clusterArg)
        else if c = "del-cluster" then
          CliResult.ran (deleteCluster env argv.instanceArg argv.clusterArg)
        else CliResult.usageError

/-- Process exit code of one CLI invocation: yargs exits non-zero on a
usage error; the handlers catch every remote failure, so a dispatched run
always exits zero. -/
def exitCode : CliResult → Nat
  | CliResult.usageError => 1
  | CliResult.ran _ => 0

/-- The remote calls issued in a trace, in order. -/
def callsOf : List Event → List RemoteCall
  | [] => []
  | Event.call c :: rest => c :: callsOf rest
  | Event.log _ :: rest => callsOf rest
  | Event.logErr _ _ :: rest => callsOf rest

/-- Whether a remote call is an instance-create call (instance.create or
bigtable.createInstance). -/
def isInstanceCreate : RemoteCall → Bool
  | RemoteCall.create _ _ => true
  | RemoteCall.createInstance _ _ => true
  | _ => false

/-- Whether a remote call is a createCluster call. -/
def isCreateCluster : RemoteCall → Bool
  | RemoteCall.createCluster _ _ _ => true
  | _ => false

/-- The instance-create calls issued in a trace. -/
def createCallsIn (t : List Event) : List RemoteCall :=
  (callsOf t).filter isInstanceCreate

/-- The createCluster calls issued in a trace. -/
def createClusterCallsIn (t : List Event) : List RemoteCall :=
  (callsOf t).filter isCreateCluster

/-- A concrete all-succeeding environment in which the named instance does
not yet exist (a fresh environment). -/
def freshEnv : Env :=
  { instanceNameProp := fun i => i.getD "undefined"
    clusterIdProp := fun _ c => c.getD "undefined"
    existsResult := fun _ => Except.ok false
    createResult := fun _ _ => Except.ok { name := "foo-full", metadata := "m0" }
    getInstancesResult := Except.ok [{ name := "foo-full", metadata := "m0" }]
    getResult := fun _ => Except.ok { name := "foo-full", metadata := "m0" }
    getClustersResult := fun _ => Except.ok [{ id := "bar" }]
    createInstanceResult := fun _ _ => Except.ok { name := "dev-full", metadata := "m1" }
    deleteInstanceResult := fun _ => Except.ok ()
    createClusterResult := fun _ _ _ => Except.ok { id := "new-cluster" }
    deleteClusterResult := fun _ _ => Except.ok () }

/-- A concrete all-succeeding environment in which every instance already
exists. -/
def existingEnv : Env :=
  { freshEnv with existsResult := fun _ => Except.ok true }

/-- A concrete environment identical to freshEnv except that the
getClusters call fails with the error "boom" and every instance exists. -/
def getClustersFailEnv : Env :=
  { freshEnv with
      existsResult := fun _ => Except.ok true
      getClustersResult := fun _ => Except.error "boom" }

/-- A concrete environment in which the existence check itself fails. -/
def existsFailEnv : Env :=
  { freshEnv with existsResult := fun _ => Except.error "down" }

/-- A concrete environment in which the instance does not exist and the
instance.create call fails. -/
def createFailEnv : Env :=
  { freshEnv with createResult := fun _ _ => Except.error "quota" }

/-- A concrete environment in which getInstances fails. -/
def getInstancesFailEnv : Env :=
  { freshEnv with getInstancesResult := Except.error "net" }

/-- A concrete environment in which the get-instance call fails. -/
def getFailEnv : Env :=
  { freshEnv with getResult := fun _ => Except.error "gone" }

/-- A concrete environment in which bigtable.createInstance fails. -/
def createInstanceFailEnv : Env :=
  { freshEnv with createInstanceResult := fun _ _ => Except.error "dup" }

/-- A concrete environment in which the instance delete call fails. -/
def deleteInstanceFailEnv : Env :=
  { freshEnv with deleteInstanceResult := fun _ => Except.error "denied" }

/-- A concrete environment in which the instance exists and the
createCluster call fails. -/
def createClusterFailEnv : Env :=
  { freshEnv with
      existsResult := fun _ => Except.ok true
      createClusterResult := fun _ _ _ => Except.error "boom2" }

/-- A concrete environment in which the cluster delete call fails. -/
def deleteClusterFailEnv : Env :=
  { freshEnv with deleteClusterResult := fun _ _ => Except.error "denied2" }

/-- The five subcommands registered with yargs (instances.js lines
223-256). -/
def commands : List String :=
  ["run", "dev-instance", "del-instance", "add-cluster", "del-cluster"]

/-- The create options exactly as the spec's end-to-end scenario lists
them, for comparison with the options the code builds: one cluster entry
with the given name, 3 nodes, location us-central1-f, storage ssd, and type
PRODUCTION, with no further field (so no labels). -/
def specRunCreateOptions (clusterName : Option String) : InstanceOptions :=
  { clusters := [{ name := clusterName, nodes := some 3,
                   location := "us-central1-f", storage := "ssd" }],
    type := "PRODUCTION",
    labels := [] }

/-- Whether runInstanceOperations gets past its create-if-absent branch
into the listing steps: the existence check succeeded, and if it reported
the instance absent the create call succeeded. -/
def reachesListing (env : Env) (instanceName clusterName : Option String) : Prop :=
  env.existsResult instanceName = Except.ok true ∨
    (env.existsResult instanceName = Except.ok false ∧
      ∃ v, env.createResult instanceName (instanceOptions clusterName) = Except.ok v)

theorem callsOf_append (t1 t2 : List Event) :
    callsOf (t1 ++ t2) = callsOf t1 ++ callsOf t2 := by
  induction t1 with
  | nil => rfl
  | cons e rest ih => cases e <;> simp [callsOf, ih]

theorem callsOf_map_log {α : Type} (f : α → String) (l : List α) :
    callsOf (l.map fun x => Event.log (f x)) = [] := by
  induction l with
  | nil => rfl
  | cons x xs ih => simp [callsOf, ih]

theorem callsOf_runListingSteps_cases (env : Env) (i : Option String) :
    callsOf (runListingSteps env i) = [RemoteCall.getInstances] ∨
    callsOf (runListingSteps env i) = [RemoteCall.getInstances, RemoteCall.get i] ∨
    callsOf (runListingSteps env i) =
      [RemoteCall.getInstances, RemoteCall.get i, RemoteCall.getClusters i] := by
  unfold runListingSteps
  cases h1 : env.getInstancesResult with
  | error e => left; simp [callsOf]
  | ok l =>
    cases h2 : env.getResult i with
    | error e =>
      right; left
      simp [callsOf_append, callsOf_map_log, callsOf]
    | ok v =>
      cases h3 : env.getClustersResult i with
      | error e =>
        right; right
        simp [callsOf_append, callsOf_map_log, callsOf]
      | ok cs =>
        right; right
        simp [callsOf_append, callsOf_map_log, callsOf]

theorem callsOf_runListingSteps_ok (env : Env) (i : Option String)
    (h1 : ∃ l, env.getInstancesResult = Except.ok l)
    (h2 : ∃ v, env.getResult i = Except.ok v)
    (h3 : ∃ cs, env.getClustersResult i = Except.ok cs) :
    callsOf (runListingSteps env i) =
      [RemoteCall.getInstances, RemoteCall.get i, RemoteCall.getClusters i] := by
  obtain ⟨l, h1⟩ := h1
  obtain ⟨v, h2⟩ := h2
  obtain ⟨cs, h3⟩ := h3
  unfold runListingSteps
  rw [h1, h2, h3]
  simp [callsOf_append, callsOf_map_log, callsOf]

theorem createCallsIn_runListingSteps (env : Env) (i : Option String) :
    (callsOf (runListingSteps env i)).filter isInstanceCreate = [] := by
  rcases callsOf_runListingSteps_cases env i with h | h | h <;>
    simp [h, isInstanceCreate]

theorem callsOf_run_existsErr (env : Env) (i c : Option String) (e : String)
    (h : env.existsResult i = Except.error e) :
    callsOf (runInstanceOperations env i c) = [RemoteCall.existsCheck i] := by
  simp [runInstanceOperations, h, callsOf]

theorem callsOf_run_existsTrue (env : Env) (i c : Option String)
    (h : env.existsResult i = Except.ok true) :
    callsOf (runInstanceOperations env i c) =
      RemoteCall.existsCheck i :: callsOf (runListingSteps env i) := by
  simp [runInstanceOperations, h, runCreateBranch, callsOf_append, callsOf]

theorem callsOf_run_existsFalse_createErr (env : Env) (i c : Option String) (e : String)
    (h : env.existsResult i = Except.ok false)
    (hc : env.createResult i (instanceOptions c) = Except.error e) :
    callsOf (runInstanceOperations env i c) =
      [RemoteCall.existsCheck i, RemoteCall.create i (instanceOptions c)] := by
  simp [runInstanceOperations, h, runCreateBranch, hc, callsOf_append, callsOf]

theorem callsOf_run_existsFalse_createOk (env : Env) (i c : Option String)
    (h : env.existsResult i = Except.ok false)
    (hc : ∃ v, env.createResult i (instanceOptions c) = Except.ok v) :
    callsOf (runInstanceOperations env i c) =
      RemoteCall.existsCheck i :: RemoteCall.create i (instanceOptions c) ::
        callsOf (runListingSteps env i) := by
  obtain ⟨v, hc⟩ := hc
  simp [runInstanceOperations, h, runCreateBranch, hc, callsOf_append, callsOf]

theorem run_createCallsIn_existsFalse (env : Env) (i c : Option String)
    (h : env.existsResult i = Except.ok false) :
    createCallsIn (runInstanceOperations env i c) =
      [RemoteCall.create i (instanceOptions c)] := by
  unfold createCallsIn
  cases hc : env.createResult i (instanceOptions c) with
  | error e =>
    rw [callsOf_run_existsFalse_createErr env i c e h hc]
    simp [isInstanceCreate]
  | ok v =>
    rw [callsOf_run_existsFalse_createOk env i c h ⟨v, hc⟩]
    simp [isInstanceCreate, List.filter_cons, createCallsIn_runListingSteps]

theorem run_createCallsIn_not_existsFalse (env : Env) (i c : Option String)
    (h : env.existsResult i ≠ Except.ok false) :
    createCallsIn (runInstanceOperations env i c) = [] := by
  unfold createCallsIn
  cases hx : env.existsResult i with
  | error e =>
    rw [callsOf_run_existsErr env i c e hx]
    simp [isInstanceCreate]
  | ok b =>
    cases b with
    | false => exact absurd hx h
    | true =>
      rw [callsOf_run_existsTrue env i c hx]
      simp [isInstanceCreate, List.filter_cons, createCallsIn_runListingSteps]

theorem callsOf_createDevInstance (env : Env) (i c : Option String) :
    callsOf (createDevInstance env i c) =
      [RemoteCall.createInstance i (devInstanceOptions c)] := by
  unfold createDevInstance
  cases h : env.createInstanceResult i (devInstanceOptions c) <;>
    simp [callsOf_append, callsOf]

theorem addCluster_trace_absent (env : Env) (i c : Option String)
    (h : env.existsResult i = Except.ok false) :
    addCluster env i c =
      [Event.call (RemoteCall.existsCheck i),
       Event.log "Instance does not exists"] := by
  simp [addCluster, h]

theorem callsOf_addCluster_present (env : Env) (i c : Option String)
    (h : env.existsResult i = Except.ok true) :
    callsOf (addCluster env i c) =
      [RemoteCall.existsCheck i, RemoteCall.createCluster i c clusterOptions] := by
  unfold addCluster
  rw [h]
  cases hc : env.createClusterResult i c clusterOptions <;>
    simp [callsOf_append, callsOf]

theorem runListingSteps_ne_nil (env : Env) (i : Option String) :
    runListingSteps env i ≠ [] := by
  unfold runListingSteps
  cases env.getInstancesResult <;> simp

theorem run_trace_reachesListing (env : Env) (i c : Option String)
    (h : reachesListing env i c) :
    ∃ t, runInstanceOperations env i c = t ++ runListingSteps env i := by
  rcases h with h | ⟨h, v, hc⟩
  · refine ⟨[Event.log "Check Instance Exists",
      Event.call (RemoteCall.existsCheck i),
      Event.log ("Instance " ++ env.instanceNameProp i ++ " exists")], ?_⟩
    simp [runInstanceOperations, h, runCreateBranch]
  · refine ⟨[Event.log "Check Instance Exists",
      Event.call (RemoteCall.existsCheck i),
      Event.log "Creating a PRODUCTION Instance",
      Event.call (RemoteCall.create i (instanceOptions c)),
      Event.log ("Created Instance: " ++ v.name)], ?_⟩
    simp [runInstanceOperations, h, runCreateBranch, hc]

theorem runListingSteps_getInstancesErr (env : Env) (i : Option String) (e : String)
    (h : env.getInstancesResult = Except.error e) :
    (runListingSteps env i).getLast? =
      some (Event.logErr "Error listing instances:" e) ∧
    callsOf (runListingSteps env i) = [RemoteCall.getInstances] := by
  unfold runListingSteps
  rw [h]
  exact ⟨rfl, rfl⟩

theorem runListingSteps_getErr (env : Env) (i : Option String) (e : String)
    (h1 : ∃ l, env.getInstancesResult = Except.ok l)
    (h2 : env.getResult i = Except.error e) :
    (runListingSteps env i).getLast? =
      some (Event.logErr "Error getting instance:" e) ∧
    callsOf (runListingSteps env i) =
      [RemoteCall.getInstances, RemoteCall.get i] := by
  obtain ⟨l, h1⟩ := h1
  unfold runListingSteps
  rw [h1, h2]
  constructor
  · rw [List.getLast?_append_of_ne_nil _ (by simp),
        List.getLast?_append_of_ne_nil _ (by simp)]
    rfl
  · simp [callsOf_append, callsOf_map_log, callsOf]

theorem runListingSteps_getClustersErr (env : Env) (i : Option String) (e : String)
    (h1 : ∃ l, env.getInstancesResult = Except.ok l)
    (h2 : ∃ v, env.getResult i = Except.ok v)
    (h3 : env.getClustersResult i = Except.error e) :
    (runListingSteps env i).getLast? =
      some (Event.logErr "Error creating cluster:" e) ∧
    callsOf (runListingSteps env i) =
      [RemoteCall.getInstances, RemoteCall.get i, RemoteCall.getClusters i] := by
  obtain ⟨l, h1⟩ := h1
  obtain ⟨v, h2⟩ := h2
  unfold runListingSteps
  rw [h1, h2, h3]
  constructor
  · rw [List.getLast?_append_of_ne_nil _ (by simp),
        List.getLast?_append_of_ne_nil _ (by simp),
        List.getLast?_append_of_ne_nil _ (by simp)]
    rfl
  · simp [callsOf_append, callsOf_map_log, callsOf]

/-- C1 counterexample: invoking the dev-instance subcommand with both
--instance and --cluster omitted does not produce a usage error: the
handler runs, the process exit code is zero, and a createInstance remote
call is issued. -/
theorem missing_argument_not_rejected :
    dispatch freshEnv ⟨some "dev-instance", false, none, none⟩ =
      CliResult.ran (createDevInstance freshEnv none none) ∧
    exitCode (dispatch freshEnv ⟨some "dev-instance", false, none, none⟩) = 0 ∧
    callsOf (createDevInstance freshEnv none none) =
      [RemoteCall.createInstance none (devInstanceOptions none)] :=
  ⟨rfl, rfl, rfl⟩

/-- C1 (amended): the CLI fails with usage text and a non-zero exit exactly
when no subcommand is given, the subcommand is not one of the five
recognized ones, or an unrecognized flag is present; no remote call is
attempted in that case (no handler runs). A missing --instance or
--cluster does not cause a usage error: the handler is invoked anyway. -/
theorem dispatch_usageError_iff (env : Env) (argv : Argv) :
    (dispatch env argv = CliResult.usageError ↔
      argv.unknownFlag = true ∨ (∀ s ∈ commands, argv.command ≠ some s)) ∧
    exitCode CliResult.usageError = 1 ∧
    (∀ t, exitCode (CliResult.ran t) = 0) := by
  refine ⟨?_, rfl, fun t => rfl⟩
  cases hf : argv.unknownFlag with
  | true => simp [dispatch, hf]
  | false =>
    cases hcmd : argv.command with
    | none => simp [dispatch, hf, hcmd, commands]
    | some s =>
      by_cases h1 : s = "run"
      · subst h1; simp [dispatch, hf, hcmd, commands]
      · by_cases h2 : s = "dev-instance"
        · subst h2; simp [dispatch, hf, hcmd, commands]
        · by_cases h3 : s = "del-instance"
          · subst h3; simp [dispatch, hf, hcmd, commands]
          · by_cases h4 : s = "add-cluster"
            · subst h4; simp [dispatch, hf, hcmd, commands]
            · by_cases h5 : s = "del-cluster"
              · subst h5; simp [dispatch, hf, hcmd, commands]
              · simp [dispatch, hf, hcmd, commands, h1, h2, h3, h4, h5]

/-- C2 counterexample: on a fresh environment the run command does issue
the create call, but its options are not exactly the record the claim
lists: the code's options carry an additional labels field, so they differ
from the spec-stated options (which have no labels). -/
theorem run_create_options_not_exact :
    createCallsIn (runInstanceOperations freshEnv (some "foo") (some "bar")) =
      [RemoteCall.create (some "foo") (instanceOptions (some "bar"))] ∧
    instanceOptions (some "bar") ≠ specRunCreateOptions (some "bar") :=
  ⟨by decide, by decide⟩

/-- C2 (amended): for the run command on a fresh environment (existence
check returns false) where the remote calls succeed, the create call is
issued with options clusters = [one entry with the cluster argument, 3
nodes, location us-central1-f, storage ssd], type PRODUCTION, and
additionally labels prod-label/prod-label; afterwards getInstances, get and
getClusters are each issued exactly once, in that order. -/
theorem run_fresh_sequence (env : Env) (i c : Option String)
    (h : env.existsResult i = Except.ok false)
    (hc : ∃ v, env.createResult i (instanceOptions c) = Except.ok v)
    (h1 : ∃ l, env.getInstancesResult = Except.ok l)
    (h2 : ∃ v, env.getResult i = Except.ok v)
    (h3 : ∃ cs, env.getClustersResult i = Except.ok cs) :
    callsOf (runInstanceOperations env i c) =
      [RemoteCall.existsCheck i,
       RemoteCall.create i
         { clusters := [{ name := c, nodes := some 3,
                          location := "us-central1-f", storage := "ssd" }],
           type := "PRODUCTION",
           labels := [("prod-label", "prod-label")] },
       RemoteCall.getInstances, RemoteCall.get i, RemoteCall.getClusters i] := by
  rw [callsOf_run_existsFalse_createOk env i c h hc,
      callsOf_runListingSteps_ok env i h1 h2 h3]
  rfl

/-- C2 witness: the amended sequence at the concrete fresh environment with
instance foo and cluster bar. -/
theorem run_fresh_sequence_witness :
    callsOf (runInstanceOperations freshEnv (some "foo") (some "bar")) =
      [RemoteCall.existsCheck (some "foo"),
       RemoteCall.create (some "foo") (instanceOptions (some "bar")),
       RemoteCall.getInstances, RemoteCall.get (some "foo"),
       RemoteCall.getClusters (some "foo")] := by
  have h := run_fresh_sequence freshEnv (some "foo") (some "bar") rfl
    ⟨_, rfl⟩ ⟨_, rfl⟩ ⟨_, rfl⟩ ⟨_, rfl⟩
  exact h

/-- C3: run issues an instance create call exactly when the existence check
reported the instance absent (one call, with one cluster entry of 3 nodes
and ssd storage, type PRODUCTION); otherwise no create call is issued. -/
theorem run_create_iff_absent (env : Env) (i c : Option String) :
    (env.existsResult i = Except.ok false →
      createCallsIn (runInstanceOperations env i c) =
        [RemoteCall.create i (instanceOptions c)]) ∧
    (env.existsResult i ≠ Except.ok false →
      createCallsIn (runInstanceOperations env i c) = []) ∧
    (instanceOptions c).clusters =
      [{ name := c, nodes := some 3,
         location := "us-central1-f", storage := "ssd" }] ∧
    (instanceOptions c).type = "PRODUCTION" :=
  ⟨run_createCallsIn_existsFalse env i c,
   run_createCallsIn_not_existsFalse env i c, rfl, rfl⟩

/-- C3 witness: on the fresh environment run creates, on the existing
environment it does not. -/
theorem run_create_iff_absent_witness :
    createCallsIn (runInstanceOperations freshEnv (some "foo") (some "bar")) =
      [RemoteCall.create (some "foo") (instanceOptions (some "bar"))] ∧
    createCallsIn (runInstanceOperations existingEnv (some "foo") (some "bar")) =
      [] :=
  ⟨(run_create_iff_absent freshEnv (some "foo") (some "bar")).1 rfl,
   (run_create_iff_absent existingEnv (some "foo") (some "bar")).2.1
     (by simp [existingEnv, freshEnv])⟩

/-- C4: every invocation of dev-instance issues exactly one createInstance
call, with type DEVELOPMENT and a single cluster entry of hdd storage and
no node count. -/
theorem devInstance_creates_development (env : Env) (i c : Option String) :
    callsOf (createDevInstance env i c) =
      [RemoteCall.createInstance i (devInstanceOptions c)] ∧
    (devInstanceOptions c).type = "DEVELOPMENT" ∧
    (devInstanceOptions c).clusters =
      [{ name := c, nodes := none,
         location := "us-central1-f", storage := "hdd" }] :=
  ⟨callsOf_createDevInstance env i c, rfl, rfl⟩

/-- C5: add-cluster issues no createCluster call and logs the
instance-does-not-exist message when the existence check reports the
instance absent; when it reports it present, exactly one createCluster
call is issued with 3 nodes, ssd storage and location us-central1-c, which
differs from the location every create path uses for the instance's own
cluster; the logged line contains the words does not exist. -/
theorem addCluster_create_iff_present (env : Env) (i c : Option String) :
    (env.existsResult i = Except.ok false →
      createClusterCallsIn (addCluster env i c) = [] ∧
      Event.log "Instance does not exists" ∈ addCluster env i c) ∧
    (env.existsResult i = Except.ok true →
      createClusterCallsIn (addCluster env i c) =
        [RemoteCall.createCluster i c clusterOptions]) ∧
    clusterOptions.nodes = 3 ∧
    clusterOptions.storage = "ssd" ∧
    clusterOptions.location = "us-central1-c" ∧
    (∀ cl ∈ (instanceOptions c).clusters, cl.location ≠ clusterOptions.location) ∧
    (∀ cl ∈ (devInstanceOptions c).clusters, cl.location ≠ clusterOptions.location) ∧
    "Instance does not exists" = "Instance " ++ "does not exist" ++ "s" := by
  refine ⟨?_, ?_, rfl, rfl, rfl, ?_, ?_, rfl⟩
  · intro h
    rw [addCluster_trace_absent env i c h]
    exact ⟨by simp [createClusterCallsIn, callsOf, isCreateCluster], by simp⟩
  · intro h
    unfold createClusterCallsIn
    rw [callsOf_addCluster_present env i c h]
    simp [isCreateCluster]
  · intro cl hcl
    simp only [instanceOptions, List.mem_singleton] at hcl
    subst hcl
    simp [clusterOptions]
  · intro cl hcl
    simp only [devInstanceOptions, List.mem_singleton] at hcl
    subst hcl
    simp [clusterOptions]

/-- C5 witness: at concrete inputs, the absent case issues no createCluster
call and the present case issues exactly one. -/
theorem addCluster_create_iff_present_witness :
    (createClusterCallsIn (addCluster freshEnv (some "foo") (some "bar")) = [] ∧
      Event.log "Instance does not exists" ∈
        addCluster freshEnv (some "foo") (some "bar")) ∧
    createClusterCallsIn (addCluster existingEnv (some "foo") (some "bar")) =
      [RemoteCall.createCluster (some "foo") (some "bar") clusterOptions] :=
  ⟨(addCluster_create_iff_present freshEnv (some "foo") (some "bar")).1 rfl,
   (addCluster_create_iff_present existingEnv (some "foo") (some "bar")).2.1 rfl⟩

/-- C6: del-instance issues exactly one delete call for the named instance
and del-cluster exactly one delete call for the named cluster; in each case
that delete is the only remote call of the handler (so no existence
pre-check), whatever the environment answers. -/
theorem delete_handlers_single_delete (env : Env) (i c : Option String) :
    callsOf (deleteInstance env i) = [RemoteCall.deleteInstance i] ∧
    callsOf (deleteCluster env i c) = [RemoteCall.deleteCluster i c] := by
  constructor
  · unfold deleteInstance
    cases h : env.deleteInstanceResult i <;> simp [callsOf_append, callsOf]
  · unfold deleteCluster
    cases h : env.deleteClusterResult i c <;> simp [callsOf_append, callsOf]

/-- C8: when the list-clusters step of run fails, the error is logged with
the static tag "Error creating cluster:", the same tag the add-cluster
handler uses for a createCluster failure, so the tag names the
create-cluster operation rather than the list-clusters operation that
actually failed. -/
theorem getClusters_failure_mislabelled :
    (runInstanceOperations getClustersFailEnv (some "foo") (some "bar")).getLast? =
      some (Event.logErr "Error creating cluster:" "boom") ∧
    (addCluster createClusterFailEnv (some "foo") (some "bar")).getLast? =
      some (Event.logErr "Error creating cluster:" "boom2") :=
  ⟨by decide, by decide⟩

/-- C9: the run command's create options always carry the labels mapping
prod-label to prod-label, and the dev-instance command's create options
always carry the labels mapping dev-label to dev-label, in addition to the
cluster and type fields. -/
theorem create_options_always_include_labels (env : Env) (i c : Option String) :
    (env.existsResult i = Except.ok false →
      createCallsIn (runInstanceOperations env i c) =
        [RemoteCall.create i (instanceOptions c)]) ∧
    (instanceOptions c).labels = [("prod-label", "prod-label")] ∧
    callsOf (createDevInstance env i c) =
      [RemoteCall.createInstance i (devInstanceOptions c)] ∧
    (devInstanceOptions c).labels = [("dev-label", "dev-label")] :=
  ⟨run_createCallsIn_existsFalse env i c, rfl,
   callsOf_createDevInstance env i c, rfl⟩

/-- C9 witness: the labels facts at the concrete fresh environment. -/
theorem create_options_always_include_labels_witness :
    createCallsIn (runInstanceOperations freshEnv (some "foo") (some "bar")) =
      [RemoteCall.create (some "foo") (instanceOptions (some "bar"))] ∧
    (instanceOptions (some "bar")).labels = [("prod-label", "prod-label")] ∧
    (devInstanceOptions (some "bar")).labels = [("dev-label", "dev-label")] :=
  ⟨(create_options_always_include_labels freshEnv (some "foo") (some "bar")).1 rfl,
   (create_options_always_include_labels freshEnv (some "foo") (some "bar")).2.1,
   (create_options_always_include_labels freshEnv (some "foo") (some "bar")).2.2.2⟩

/-- C10: with a recognized subcommand the dispatcher never produces a usage
error whatever named arguments are missing; in particular dev-instance with
--cluster omitted invokes the handler with the cluster argument undefined
and the handler issues its createInstance call whose single cluster entry
has an undefined name. -/
theorem missing_args_passed_through (env : Env) (i : Option String) :
    dispatch env ⟨some "dev-instance", false, i, none⟩ =
      CliResult.ran (createDevInstance env i none) ∧
    callsOf (createDevInstance env i none) =
      [RemoteCall.createInstance i (devInstanceOptions none)] ∧
    (devInstanceOptions none).clusters =
      [{ name := none, nodes := none,
         location := "us-central1-f", storage := "hdd" }] ∧
    (∀ s ∈ commands, ∀ a b : Option String,
      dispatch env ⟨some s, false, a, b⟩ ≠ CliResult.usageError) := by
  refine ⟨rfl, callsOf_createDevInstance env i none, rfl, ?_⟩
  intro s hs a b
  fin_cases hs <;> intro hcontra <;> exact CliResult.noConfusion hcontra

/-- C7: in every handler, each failing remote call has its error logged
with a static tag and ends the handler (the logged error is the last trace
event, and the failing call is the last remote call issued), and a handler
failure never makes the process exit non-zero (a dispatched run always
exits zero). Each conjunct covers one call site: the run handler's
existence check, create, getInstances, get and getClusters, the
dev-instance create, the instance delete, the add-cluster existence check
and createCluster, and the cluster delete. -/
theorem failures_log_abort_exit_zero (env : Env) (i c : Option String) (e : String) :
    (env.existsResult i = Except.error e →
      runInstanceOperations env i c =
        [Event.log "Check Instance Exists",
         Event.call (RemoteCall.existsCheck i),
         Event.logErr "Error checking if Instance exists:" e]) ∧
    (env.existsResult i = Except.ok false →
      env.createResult i (instanceOptions c) = Except.error e →
      runInstanceOperations env i c =
        [Event.log "Check Instance Exists",
         Event.call (RemoteCall.existsCheck i),
         Event.log "Creating a PRODUCTION Instance",
         Event.call (RemoteCall.create i (instanceOptions c)),
         Event.logErr "Error creating prod-instance:" e]) ∧
    (reachesListing env i c →
      env.getInstancesResult = Except.error e →
      (runInstanceOperations env i c).getLast? =
        some (Event.logErr "Error listing instances:" e) ∧
      (callsOf (runInstanceOperations env i c)).getLast? =
        some RemoteCall.getInstances) ∧
    (reachesListing env i c →
      (∃ l, env.getInstancesResult = Except.ok l) →
      env.getResult i = Except.error e →
      (runInstanceOperations env i c).getLast? =
        some (Event.logErr "Error getting instance:" e) ∧
      (callsOf (runInstanceOperations env i c)).getLast? =
        some (RemoteCall.get i)) ∧
    (reachesListing env i c →
      (∃ l, env.getInstancesResult = Except.ok l) →
      (∃ v, env.getResult i = Except.ok v) →
      env.getClustersResult i = Except.error e →
      (runInstanceOperations env i c).getLast? =
        some (Event.logErr "Error creating cluster:" e) ∧
      (callsOf (runInstanceOperations env i c)).getLast? =
        some (RemoteCall.getClusters i)) ∧
    (env.createInstanceResult i (devInstanceOptions c) = Except.error e →
      createDevInstance env i c =
        [Event.log "", Event.log "Creating a DEVELOPMENT Instance",
         Event.call (RemoteCall.createInstance i (devInstanceOptions c)),
         Event.logErr "Error creating dev-instance:" e]) ∧
    (env.deleteInstanceResult i = Except.error e →
      deleteInstance env i =
        [Event.log "", Event.log "Deleting Instance",
         Event.call (RemoteCall.deleteInstance i),
         Event.logErr "Error deleting instance:" e]) ∧
    (env.existsResult i = Except.error e →
      addCluster env i c =
        [Event.call (RemoteCall.existsCheck i),
         Event.logErr "Error checking if Instance exists:" e]) ∧
    (env.existsResult i = Except.ok true →
      env.createClusterResult i c clusterOptions = Except.error e →
      addCluster env i c =
        [Event.call (RemoteCall.existsCheck i),
         Event.log "",
         Event.log ("Adding Cluster to Instance " ++ env.instanceNameProp i),
         Event.call (RemoteCall.createCluster i c clusterOptions),
         Event.logErr "Error creating cluster:" e]) ∧
    (env.deleteClusterResult i c = Except.error e →
      deleteCluster env i c =
        [Event.log "", Event.log "Deleting Cluster",
         Event.call (RemoteCall.deleteCluster i c),
         Event.logErr "Error deleting cluster:" e]) ∧
    (∀ t, exitCode (CliResult.ran t) = 0) := by
  refine ⟨?_, ?_, ?_, ?_, ?_, ?_, ?_, ?_, ?_, ?_, fun t => rfl⟩
  · intro h
    simp [runInstanceOperations, h]
  · intro h hc
    simp [runInstanceOperations, h, runCreateBranch, hc]
  · intro hr hf
    obtain ⟨t, ht⟩ := run_trace_reachesListing env i c hr
    have hl := runListingSteps_getInstancesErr env i e hf
    rw [ht]
    constructor
    · rw [List.getLast?_append_of_ne_nil _ (runListingSteps_ne_nil env i)]
      exact hl.1
    · rw [callsOf_append, hl.2,
          List.getLast?_append_of_ne_nil _ (by simp)]
      rfl
  · intro hr h1 h2
    obtain ⟨t, ht⟩ := run_trace_reachesListing env i c hr
    have hl := runListingSteps_getErr env i e h1 h2
    rw [ht]
    constructor
    · rw [List.getLast?_append_of_ne_nil _ (runListingSteps_ne_nil env i)]
      exact hl.1
    · rw [callsOf_append, hl.2,
          List.getLast?_append_of_ne_nil _ (by simp)]
      rfl
  · intro hr h1 h2 h3
    obtain ⟨t, ht⟩ := run_trace_reachesListing env i c hr
    have hl := runListingSteps_getClustersErr env i e h1 h2 h3
    rw [ht]
    constructor
    · rw [List.getLast?_append_of_ne_nil _ (runListingSteps_ne_nil env i)]
      exact hl.1
    · rw [callsOf_append, hl.2,
          List.getLast?_append_of_ne_nil _ (by simp)]
      rfl
  · intro h
    simp [createDevInstance, h]
  · intro h
    simp [deleteInstance, h]
  · intro h
    simp [addCluster, h]
  · intro h hc
    simp [addCluster, h, hc]
  · intro h
    simp [deleteCluster, h]

/-- C7 witness: each failure branch exercised at a concrete environment in
which exactly that call fails. -/
theorem failures_log_abort_exit_zero_witness :
    runInstanceOperations existsFailEnv (some "foo") (some "bar") =
      [Event.log "Check Instance Exists",
       Event.call (RemoteCall.existsCheck (some "foo")),
       Event.logErr "Error checking if Instance exists:" "down"] ∧
    runInstanceOperations createFailEnv (some "foo") (some "bar") =
      [Event.log "Check Instance Exists",
       Event.call (RemoteCall.existsCheck (some "foo")),
       Event.log "Creating a PRODUCTION Instance",
       Event.call (RemoteCall.create (some "foo") (instanceOptions (some "bar"))),
       Event.logErr "Error creating prod-instance:" "quota"] ∧
    (runInstanceOperations getInstancesFailEnv (some "foo") (some "bar")).getLast? =
      some (Event.logErr "Error listing instances:" "net") ∧
    (runInstanceOperations getFailEnv (some "foo") (some "bar")).getLast? =
      some (Event.logErr "Error getting instance:" "gone") ∧
    (runInstanceOperations getClustersFailEnv (some "foo") (some "bar")).getLast? =
      some (Event.logErr "Error creating cluster:" "boom") ∧
    createDevInstance createInstanceFailEnv (some "foo") (some "bar") =
      [Event.log "", Event.log "Creating a DEVELOPMENT Instance",
       Event.call (RemoteCall.createInstance (some "foo")
         (devInstanceOptions (some "bar"))),
       Event.logErr "Error creating dev-instance:" "dup"] ∧
    deleteInstance deleteInstanceFailEnv (some "foo") =
      [Event.log "", Event.log "Deleting Instance",
       Event.call (RemoteCall.deleteInstance (some "foo")),
       Event.logErr "Error deleting instance:" "denied"] ∧
    addCluster existsFailEnv (some "foo") (some "bar") =
      [Event.call (RemoteCall.existsCheck (some "foo")),
       Event.logErr "Error checking if Instance exists:" "down"] ∧
    addCluster createClusterFailEnv (some "foo") (some "bar") =
      [Event.call (RemoteCall.existsCheck (some "foo")),
       Event.log "",
       Event.log ("Adding Cluster to Instance " ++
         createClusterFailEnv.instanceNameProp (some "foo")),
       Event.call (RemoteCall.createCluster (some "foo") (some "bar") clusterOptions),
       Event.logErr "Error creating cluster:" "boom2"] ∧
    deleteCluster deleteClusterFailEnv (some "foo") (some "bar") =
      [Event.log "", Event.log "Deleting Cluster",
       Event.call (RemoteCall.deleteCluster (some "foo") (some "bar")),
       Event.logErr "Error deleting cluster:" "denied2"] ∧
    exitCode (CliResult.ran []) = 0 :=
  ⟨(failures_log_abort_exit_zero existsFailEnv (some "foo") (some "bar") "down").1 rfl,
   (failures_log_abort_exit_zero createFailEnv (some "foo") (some "bar") "quota").2.1
     rfl rfl,
   ((failures_log_abort_exit_zero getInstancesFailEnv (some "foo") (some "bar")
     "net").2.2.1 (Or.inr ⟨rfl, _, rfl⟩) rfl).1,
   ((failures_log_abort_exit_zero getFailEnv (some "foo") (some "bar")
     "gone").2.2.2.1 (Or.inr ⟨rfl, _, rfl⟩) ⟨_, rfl⟩ rfl).1,
   ((failures_log_abort_exit_zero getClustersFailEnv (some "foo") (some "bar")
     "boom").2.2.2.2.1 (Or.inl rfl) ⟨_, rfl⟩ ⟨_, rfl⟩ rfl).1,
   (failures_log_abort_exit_zero createInstanceFailEnv (some "foo") (some "bar")
     "dup").2.2.2.2.2.1 rfl,
   (failures_log_abort_exit_zero deleteInstanceFailEnv (some "foo") (some "bar")
     "denied").2.2.2.2.2.2.1 rfl,
   (failures_log_abort_exit_zero existsFailEnv (some "foo") (some "bar")
     "down").2.2.2.2.2.2.2.1 rfl,
   (failures_log_abort_exit_zero createClusterFailEnv (some "foo") (some "bar")
     "boom2").2.2.2.2.2.2.2.2.1 rfl rfl,
   (failures_log_abort_exit_zero deleteClusterFailEnv (some "foo") (some "bar")
     "denied2").2.2.2.2.2.2.2.2.2.1 rfl,
   (failures_log_abort_exit_zero freshEnv (some "foo") (some "bar")
     "x").2.2.2.2.2.2.2.2.2.2 []⟩

/-- C10 witness: the pass-through facts at a concrete invocation. -/
theorem missing_args_passed_through_witness :
    dispatch freshEnv ⟨some "dev-instance", false, some "foo", none⟩ =
      CliResult.ran (createDevInstance freshEnv (some "foo") none) ∧
    dispatch freshEnv ⟨some "run", false, some "foo", some "bar"⟩ ≠
      CliResult.usageError :=
  ⟨(missing_args_passed_through freshEnv (some "foo")).1,
   (missing_args_passed_through freshEnv (some "foo")).2.2.2 "run"
     (by decide) (some "foo") (some "bar")⟩

end Instances
